/-
  Verification of the SSR render dispatcher (Astro worker-thread experiment).

  This file gives a shallow embedding, in Lean 4, of the parts of the
  repository that the verified properties talk about:

  * the hybrid request classifier `shouldUseWorker` and its route
    predicates (worker middleware, `middleware.ts`);
  * the queue-full fallback of the worker middleware;
  * the worker pool manager: CPU detection, initialization sizing,
    render submission, health check, and shutdown (`worker-pool.ts`);
  * the per-URL request statistics map and its eviction policy;
  * the render-task serialization layer `createRenderInput` /
    `createRequestFromInput` (`serialize.ts`);
  * the render engine's synthesized 500 error page (`render-engine.ts`).

  JavaScript `Map` objects are embedded as association lists in insertion
  order (JS maps iterate in insertion order; `set` on an existing key keeps
  its position, `set` on a fresh key appends).  JS numbers that carry
  averages or durations are embedded as rationals; counters as naturals.
  Functions that can throw are embedded with `Except String`, carrying the
  thrown message, because the middleware dispatches on message substrings.
-/
import Mathlib

set_option autoImplicit false
set_option maxRecDepth 2000

/-! ## String utilities

`strIncludes s pat` embeds JavaScript `s.includes(pat)`: `pat` occurs as a
contiguous substring of `s`. -/

def strIncludes (s pat : String) : Bool :=
  decide (pat.toList <:+: s.toList)

/-- JavaScript `s.startsWith(pat)`. -/
def strStartsWith (s pat : String) : Bool :=
  decide (pat.toList <+: s.toList)

/-! ## SSR modes -/

inductive SSRMode where
  | traditional
  | worker
  | hybrid
deriving DecidableEq, Repr

/-! ## Per-URL request statistics (middleware.ts)

The middleware keeps `Map<string, { count, avgDuration }>`; embedded as an
association list in insertion order. -/

structure RequestStat where
  count : Nat
  avgDuration : ℚ
deriving DecidableEq, Repr

abbrev StatsMap := List (String × RequestStat)

/-- Embeds `Map.get` on the stats map: first entry with the given key. -/
def statsLookup (url : String) : StatsMap → Option RequestStat
  | [] => none
  | (k, v) :: rest => if k = url then some v else statsLookup url rest

/-- Embeds `Map.set` on the stats map: replace the value in place when the key is
present (keeping its insertion position), append otherwise. -/
def statsSet (url : String) (v : RequestStat) : StatsMap → StatsMap
  | [] => [(url, v)]
  | (k, w) :: rest =>
      if k = url then (k, v) :: rest else (k, w) :: statsSet url v rest

/-! ## Route predicates of the hybrid classifier (middleware.ts) -/

/-- Embeds `isIOHeavyRoute` from the middleware: API endpoints, the API-heavy test
page, and the mixed-workload page. -/
def isIOHeavyRoute (url : String) : Bool :=
  strIncludes url "/api/" ||
  strIncludes url "/test/api-heavy" ||
  strIncludes url "/test/mixed"

/-- Embeds `isCPUIntensiveRoute` from the middleware: the heavy analytics page and
the benchmark-results visualization. -/
def isCPUIntensiveRoute (url : String) : Bool :=
  strIncludes url "/test/cpu-intensive" ||
  strIncludes url "/benchmark-results"

/-- Embeds `isSimpleRoute` from the middleware: the simple test page and the home
page. -/
def isSimpleRoute (url : String) : Bool :=
  strIncludes url "/test/simple" ||
  url = "/"

/-- Embeds `shouldUseWorker` from the middleware, verbatim: `true` means the
request is dispatched to the worker pool, `false` means it renders inline
on the main thread. -/
def shouldUseWorker (mode : SSRMode) (url : String) (stats : StatsMap) : Bool :=
  if mode = .traditional then false
  else if strIncludes url "/api/metrics" then false
  else if mode = .worker then true
  else if isIOHeavyRoute url then false
  else if isCPUIntensiveRoute url then true
  else if isSimpleRoute url then true
  else
    match statsLookup url stats with
    | none => true
    | some stat =>
        if stat.avgDuration < 50 then false
        else if stat.avgDuration > 200 then false
        else true

/-! ## The hybrid classification as the claim words it

`claimHybridUseWorker` is written from the claim's sentence, to be compared
against `shouldUseWorker` in hybrid mode.  The claim's rules in order:
metrics-endpoint path → inline; I/O-heavy (beginning with the API prefix
`/api/`, or containing the substrings `api-heavy` or `mixed`) → inline;
CPU-intensive (`cpu-intensive` or the results-viewer page
`/benchmark-results`) → worker; simple (`/` exactly or containing
`simple`) → worker; otherwise by recorded stats. -/
def claimHybridUseWorker (url : String) (stats : StatsMap) : Bool :=
  if strIncludes url "/api/metrics" then false
  else if strStartsWith url "/api/" ||
          strIncludes url "api-heavy" ||
          strIncludes url "mixed" then false
  else if strIncludes url "cpu-intensive" ||
          strIncludes url "/benchmark-results" then true
  else if url = "/" || strIncludes url "simple" then true
  else
    match statsLookup url stats with
    | none => true
    | some stat =>
        if stat.avgDuration < 50 then false
        else if stat.avgDuration > 200 then false
        else true

/-! ## The hybrid classification as the code has it (amended claim)

Same rule order as the claim, with the patterns the code actually tests:
the I/O-heavy patterns are the substrings `/api/`, `/test/api-heavy`,
`/test/mixed`; CPU-intensive are `/test/cpu-intensive`,
`/benchmark-results`; simple are `/test/simple` or the URL `/` exactly;
the metrics rule matches the substring `/api/metrics`. -/
def amendedHybridUseWorker (url : String) (stats : StatsMap) : Bool :=
  if strIncludes url "/api/metrics" then false
  else if strIncludes url "/api/" ||
          strIncludes url "/test/api-heavy" ||
          strIncludes url "/test/mixed" then false
  else if strIncludes url "/test/cpu-intensive" ||
          strIncludes url "/benchmark-results" then true
  else if strIncludes url "/test/simple" || url = "/" then true
  else
    match statsLookup url stats with
    | none => true
    | some stat =>
        if stat.avgDuration < 50 then false
        else if stat.avgDuration > 200 then false
        else true

/-! ## Render task schema (serialize.ts)

`RenderInput` crosses main → worker, `RenderOutput` crosses worker → main.
Header maps are embedded as association lists; `locals` values (JS `any`)
are embedded as strings, which is enough for the claims (the claims never
look inside a local). -/

structure RenderInput where
  url : String
  method : String
  headers : List (String × String)
  body : Option String
  locals : Option (List (String × String))
deriving DecidableEq, Repr

structure RenderOutput where
  status : Nat
  statusText : String
  headers : List (String × String)
  body : String
  duration : ℚ
  workerId : Nat
deriving DecidableEq, Repr

/-- The main-thread `Request` object as far as the serialization layer
observes it: URL, method, headers, the body stream's content (`none` when
the request has no body), and whether that stream has already been read. -/
structure JsRequest where
  url : String
  method : String
  headers : List (String × String)
  body : Option String
  bodyConsumed : Bool
deriving DecidableEq, Repr

/-- Embeds `await request.text()`: throws when the body stream was already
consumed; resolves to the body text (the empty string for a bodyless
request) otherwise. -/
def jsRequestText (r : JsRequest) : Except String String :=
  if r.bodyConsumed then .error "Body has already been consumed."
  else .ok (r.body.getD "")

/-- Embeds `createRenderInput` from serialize.ts.  Headers are copied, the body is
read only for non-GET/HEAD methods, and a throwing body read is caught and
turned into an absent body.  The function itself never throws. -/
def createRenderInput (r : JsRequest)
    (locals : Option (List (String × String))) : RenderInput :=
  let body : Option String :=
    if r.method ≠ "GET" ∧ r.method ≠ "HEAD" then
      match jsRequestText r with
      | .ok s => some s
      | .error _ => none
    else none
  { url := r.url, method := r.method, headers := r.headers,
    body := body, locals := locals }

/-- Embeds `createRequestFromInput` from serialize.ts.  The body is passed to the
`Request` constructor only when `body && method !== "GET" && method !==
"HEAD"`; in JavaScript an empty string is falsy, so an empty body is
dropped. -/
def createRequestFromInput (i : RenderInput) : JsRequest :=
  let body : Option String :=
    match i.body with
    | some b =>
        if b ≠ "" ∧ i.method ≠ "GET" ∧ i.method ≠ "HEAD" then some b
        else none
    | none => none
  { url := i.url, method := i.method, headers := i.headers,
    body := body, bodyConsumed := false }

/-- The main-thread HTTP response the middleware assembles. -/
structure HttpResponse where
  status : Nat
  statusText : String
  headers : List (String × String)
  body : String
deriving DecidableEq, Repr

/-- Embeds `createResponseFromOutput` from serialize.ts. -/
def createResponseFromOutput (o : RenderOutput) : HttpResponse :=
  { status := o.status, statusText := o.statusText,
    headers := o.headers, body := o.body }

/-! ## Worker pool manager (worker-pool.ts)

The Piscina pool object is embedded as `Option PoolOptions`: `some` holds
the configuration the pool was constructed with, `none` means no pool
(before `initialize()` or after `shutdown()`).  Live Piscina gauges
(`queueSize`, `threads.length`) and the outcome of `pool.run` are supplied
as oracle parameters, since they depend on the runtime. -/

structure PoolOptions where
  minThreads : Int
  maxThreads : Int
  maxQueue : Int
  /-- milliseconds -/
  idleTimeout : Int
deriving DecidableEq, Repr

structure PoolMetrics where
  totalTasks : Nat
  completedTasks : Nat
  failedTasks : Nat
  activeWorkers : Nat
  queueSize : Nat
  avgTaskDuration : ℚ
  cpuUsage : ℚ
deriving DecidableEq, Repr

def PoolMetrics.initial : PoolMetrics :=
  { totalTasks := 0, completedTasks := 0, failedTasks := 0,
    activeWorkers := 0, queueSize := 0, avgTaskDuration := 0, cpuUsage := 0 }

structure WorkerPoolManager where
  pool : Option PoolOptions
  metrics : PoolMetrics
  taskDurations : List ℚ
deriving DecidableEq, Repr

def WorkerPoolManager.initial : WorkerPoolManager :=
  { pool := none, metrics := PoolMetrics.initial, taskDurations := [] }

/-- JavaScript truthiness of a parsed number: `none` stands for `NaN`
(falsy); a number is truthy iff it is nonzero. -/
def jsTruthyNum : Option Int → Bool
  | none => false
  | some v => v ≠ 0

/-- The cgroup-detection part of `getCpuCount`.  Each cgroup source is
`none` when reading the file threw, and otherwise carries the two parsed
numbers (`none` inside stands for `NaN`, e.g. the literal token `max` in
`cpu.max`).  cgroups v1 is consulted only when the v2 read threw.  The v2
branch falls back to the OS CPU count unless its computed quota is
positive; the v1 branch, as in the source, returns
`Math.floor(quota / period)` unconditionally once `quota > 0 && period >
0` — including 0 for a sub-CPU quota. -/
def detectCgroupCpu (cgV2 cgV1 : Option (Option Int × Option Int))
    (osCpus : Nat) : Int :=
  match cgV2 with
  | some (mx, period) =>
      match mx, period with
      | some m, some p =>
          if m ≠ 0 ∧ p ≠ 0 ∧ m ≠ -1 then
            if Int.fdiv m p > 0 then Int.fdiv m p else (osCpus : Int)
          else (osCpus : Int)
      | _, _ => (osCpus : Int)
  | none =>
      match cgV1 with
      | some (quota, period) =>
          match quota, period with
          | some q, some p =>
              if q > 0 ∧ p > 0 then Int.fdiv q p
              else (osCpus : Int)
          | _, _ => (osCpus : Int)
      | none => (osCpus : Int)

/-- Embeds `getCpuCount` from worker-pool.ts.  `workerThreads` is the parsed
`WORKER_THREADS` environment variable (`none` when unset, empty, or not a
number); a positive override is returned directly, anything else falls
through to cgroup/OS detection. -/
def getCpuCount (workerThreads : Option Int)
    (cgV2 cgV1 : Option (Option Int × Option Int)) (osCpus : Nat) : Int :=
  match workerThreads with
  | some o => if o > 0 then o else detectCgroupCpu cgV2 cgV1 osCpus
  | none => detectCgroupCpu cgV2 cgV1 osCpus

/-- Embeds the pool manager's initialization step.  When a pool already exists it logs a
warning and returns normally (no error).  Otherwise it sizes the pool from
the detected CPU count and constructs the Piscina pool. -/
def WorkerPoolManager.initializePool (st : WorkerPoolManager)
    (workerThreads : Option Int) (cgV2 cgV1 : Option (Option Int × Option Int))
    (osCpus : Nat) : Except String WorkerPoolManager :=
  match st.pool with
  | some _ => .ok st
  | none =>
      let cpuCount := getCpuCount workerThreads cgV2 cgV1 osCpus
      let minThreads := max 1 (Int.fdiv cpuCount 2)
      let maxThreads := max 2 cpuCount
      .ok { st with
              pool := some { minThreads := minThreads, maxThreads := maxThreads,
                             maxQueue := maxThreads * 4, idleTimeout := 30000 } }

/-- Embeds `trackTaskDuration`: push the sample, keep the last 100 (`shift()`
drops the oldest), recompute the average. -/
def WorkerPoolManager.trackTaskDuration (st : WorkerPoolManager)
    (duration : ℚ) : WorkerPoolManager :=
  let ds := st.taskDurations ++ [duration]
  let ds := if ds.length > 100 then ds.tail else ds
  let avg := ds.foldl (· + ·) 0 / (ds.length : ℚ)
  { st with taskDurations := ds,
            metrics := { st.metrics with avgTaskDuration := avg } }

/-- The message of the error `render` throws when no pool exists (thrown
both before `initialize()` and after `shutdown()`). -/
def notInitializedMessage : String :=
  "Worker pool not initialized. Call initialize() first."

/-- Embeds `WorkerPoolManager.render`.  `workerResult` is the outcome of
`pool.run(input)`; `liveQueueSize` and `liveActiveWorkers` are Piscina's
live gauges at submission time.  Returns the result together with the
updated manager state. -/
def WorkerPoolManager.render (st : WorkerPoolManager) (_input : RenderInput)
    (workerResult : Except String RenderOutput)
    (liveQueueSize liveActiveWorkers : Nat) :
    Except String RenderOutput × WorkerPoolManager :=
  match st.pool with
  | none => (.error notInitializedMessage, st)
  | some _ =>
      let st := { st with
        metrics := { st.metrics with
          totalTasks := st.metrics.totalTasks + 1,
          queueSize := liveQueueSize,
          activeWorkers := liveActiveWorkers } }
      match workerResult with
      | .ok output =>
          let st := { st with
            metrics := { st.metrics with
              completedTasks := st.metrics.completedTasks + 1 } }
          (.ok output, st.trackTaskDuration output.duration)
      | .error e =>
          (.error e,
           { st with
             metrics := { st.metrics with
               failedTasks := st.metrics.failedTasks + 1 } })

/-- Embeds `isHealthy`: `false` without a pool; otherwise the cumulative failure
rate must be strictly below one tenth (the source literal `0.1`). -/
def WorkerPoolManager.isHealthy (st : WorkerPoolManager) : Bool :=
  match st.pool with
  | none => false
  | some _ =>
      let failureRate : ℚ :=
        if st.metrics.totalTasks > 0 then
          (st.metrics.failedTasks : ℚ) / (st.metrics.totalTasks : ℚ)
        else 0
      failureRate < 1/10

/-- Embeds `shutdown`: destroy the Piscina pool (drains tasks, terminates
workers) and clear the reference; a no-op when no pool exists. -/
def WorkerPoolManager.shutdown (st : WorkerPoolManager) : WorkerPoolManager :=
  match st.pool with
  | none => st
  | some _ => { st with pool := none }

/-! ## Dispatcher middleware (middleware.ts)

The worker-dispatch path of `createWorkerMiddleware`: when the request is
classified for the pool, the middleware tries `renderInWorker`; an error
whose message contains Piscina's queue-at-limit text falls back to an
inline `app.render`; any other error is rethrown to the outer handler,
which replies `500 Server error` with an empty body.  The inline render's
response and the pool submission's outcome are oracle parameters. -/

/-- The text of Piscina's queue-full error; the middleware tests the caught
message for this substring. -/
def queueFullMessage : String := "Task queue is at limit"

/-- The inner try/catch around `renderInWorker`: a queue-full failure is
replaced by the inline render, any other failure is rethrown. -/
def workerBranch (submitResult : Except String RenderOutput)
    (inlineResponse : HttpResponse) : Except String HttpResponse :=
  match submitResult with
  | .ok out => .ok (createResponseFromOutput out)
  | .error msg =>
      if strIncludes msg queueFullMessage then .ok inlineResponse
      else .error msg

/-- The outer catch: `res.writeHead(500, "Server error"); res.end()`. -/
def serverErrorResponse : HttpResponse :=
  { status := 500, statusText := "Server error", headers := [], body := "" }

/-- The response the middleware writes for a matched route: the worker
path (with its queue-full fallback and the outer 500 handler) when
`useWorker && mode !== "traditional"`, the inline render otherwise. -/
def middlewareReply (mode : SSRMode) (url : String) (stats : StatsMap)
    (submitResult : Except String RenderOutput)
    (inlineResponse : HttpResponse) : HttpResponse :=
  if shouldUseWorker mode url stats = true ∧ mode ≠ .traditional then
    match workerBranch submitResult inlineResponse with
    | .ok r => r
    | .error _ => serverErrorResponse
  else inlineResponse

/-- Embeds `updateRequestStats` from middleware.ts: create or update the entry
(rolling average), then, when the map exceeds 100 entries, delete the
first key in insertion order — guarded by JS truthiness of the key, so an
empty-string key would not be deleted. -/
def updateRequestStats (url : String) (duration : ℚ)
    (stats : StatsMap) : StatsMap :=
  let stats1 :=
    match statsLookup url stats with
    | none => statsSet url { count := 1, avgDuration := duration } stats
    | some existing =>
        let newCount := existing.count + 1
        let newAvg :=
          (existing.avgDuration * (existing.count : ℚ) + duration) / (newCount : ℚ)
        statsSet url { count := newCount, avgDuration := newAvg } stats
  if stats1.length > 100 then
    match stats1 with
    | [] => stats1
    | (firstKey, v) :: rest => if firstKey ≠ "" then rest else (firstKey, v) :: rest
  else stats1

/-! ## Render engine and its synthesized 500 page (render-engine.ts)

`renderRoute` runs the route's renderer; on a throw it answers with a
synthesized 500 document that interpolates the error's message and stack
verbatim.  To settle whether that document parses as valid HTML we scan
its markup tags and check that non-void tags nest properly. -/

structure JsError where
  message : String
  stack : String
deriving DecidableEq, Repr

/-! The 500 template literal of `generateErrorPage`, split into consecutive
pieces (the concatenation of `errPage1 … errPage5`, the message,
`errPage6`, the stack, `errPage7` is the source's template verbatim; the
split, and the right-associated grouping below, only keep later kernel
evaluations shallow). -/

def errPage1 : String :=
  "<!DOCTYPE html>\n<html lang=\"en\">\n<head>\n  <meta charset=\"UTF-8\">\n  <meta name=\"viewport\" content=\"width=device-width\">\n"

def errPage2 : String :=
  "  <title>500 Internal Server Error</title>\n  <style>\n    body \x7b\n      font-family: system-ui, -apple-system, sans-serif;\n"

def errPage3 : String :=
  "      max-width: 600px;\n      margin: 100px auto;\n      padding: 20px;\n      text-align: center;\n    \x7d\n    h1 \x7b color: #ef4444; \x7d\n"

def errPage4 : String :=
  "    pre \x7b\n      text-align: left;\n      background: #f5f5f5;\n      padding: 20px;\n      border-radius: 8px;\n      overflow-x: auto;\n    \x7d\n  </style>\n"

def errPage5 : String :=
  "</head>\n<body>\n  <h1>500 Internal Server Error</h1>\n  <p>"

def errPage6 : String :=
  "</p>\n  <pre>"

def errPage7 : String :=
  "</pre>\n</body>\n</html>"

/-- Embeds `generateErrorPage` from render-engine.ts: the message lands between
`<p>` and `</p>`, the stack between `<pre>` and `</pre>`, with no
escaping. -/
def generateErrorPage (error : JsError) : String :=
  errPage1 ++ (errPage2 ++ (errPage3 ++ (errPage4 ++ (errPage5 ++
    (error.message ++ (errPage6 ++ (error.stack ++ errPage7)))))))

structure RenderResult where
  html : String
  duration : ℚ
  error : Option JsError
deriving DecidableEq, Repr

/-- Embeds `renderRoute`: the renderer's outcome and its wall-clock duration are
oracle parameters; on a throw the result carries the synthesized 500 page
plus the error. -/
def renderRoute (rendererResult : Except JsError String)
    (duration : ℚ) : RenderResult :=
  match rendererResult with
  | .ok html => { html := html, duration := duration, error := none }
  | .error err =>
      { html := generateErrorPage err, duration := duration, error := some err }

/-! ### A small HTML markup checker

`tagsOf` collects the text between each `<` and the following `>`;
`checkTagNesting` then requires every closing tag to match the innermost
open non-void tag and every open tag to be closed.  This is the validity
notion used for the error-page property: a document whose tags do not
nest cannot parse as conforming HTML. -/

structure ScanState where
  inTag : Bool
  cur : List Char
  acc : List String
deriving DecidableEq, Repr

def scanStep (st : ScanState) (c : Char) : ScanState :=
  if st.inTag then
    if c = '>' then
      { inTag := false, cur := [], acc := String.mk st.cur.reverse :: st.acc }
    else { st with cur := c :: st.cur }
  else if c = '<' then { st with inTag := true, cur := [] }
  else st

def scanStart : ScanState := { inTag := false, cur := [], acc := [] }

def scanDoc (doc : String) : ScanState :=
  doc.toList.foldl scanStep scanStart

def tagsOf (doc : String) : List String :=
  (scanDoc doc).acc.reverse

/-- A string is clean when scanning it ends outside any tag: scanning a
concatenation of clean strings then decomposes piecewise. -/
abbrev CleanScan (s : String) : Prop :=
  (scanDoc s).inTag = false ∧ (scanDoc s).cur = []

/-- The element name of a tag body: everything before the first
whitespace. -/
def tagNameOf (t : String) : String :=
  String.mk (t.toList.takeWhile (fun c => c ≠ ' ' ∧ c ≠ '\n' ∧ c ≠ '\t'))

/-- Tags that need no closing counterpart (void elements and the
doctype declaration). -/
def voidTagNames : List String :=
  ["!DOCTYPE", "!doctype", "meta", "link", "br", "hr", "img", "input"]

def checkTagNesting : List String → List String → Bool
  | [], stack => stack.isEmpty
  | t :: rest, stack =>
      match t.toList with
      | '/' :: closeBody =>
          match stack with
          | [] => false
          | top :: stack' =>
              if top = tagNameOf (String.mk closeBody) then
                checkTagNesting rest stack'
              else false
      | _ =>
          if decide (tagNameOf t ∈ voidTagNames) then checkTagNesting rest stack
          else checkTagNesting rest (tagNameOf t :: stack)

def parsesAsValidHtml (doc : String) : Bool :=
  checkTagNesting (tagsOf doc) []

/-! ## Observation sequences over the stats map

`observeAll` runs `updateRequestStats` once per URL (one completed render
each), starting from the empty map; `c9urls` is a concrete family of 101
distinct URLs. -/

def observeAll (urls : List String) (d : ℚ) : StatsMap :=
  urls.foldl (fun m u => updateRequestStats u d m) []

def c9urls : List String :=
  (List.range 101).map (fun i => "/u" ++ toString i)

/-- The scan step touches the accumulator only by pushing: the state reached
from accumulator `a` is the state reached from the empty accumulator with
`a` appended behind. -/
theorem scanStep_acc (i : Bool) (c : List Char) (a : List String) (ch : Char) :
    scanStep ⟨i, c, a⟩ ch =
      ⟨(scanStep ⟨i, c, []⟩ ch).inTag, (scanStep ⟨i, c, []⟩ ch).cur,
       (scanStep ⟨i, c, []⟩ ch).acc ++ a⟩ := by
  unfold scanStep
  split_ifs <;> rfl

/-- Accumulator factorization of the whole scan. -/
theorem foldl_scanStep_acc (l : List Char) :
    ∀ (i : Bool) (c : List Char) (a : List String),
      l.foldl scanStep ⟨i, c, a⟩ =
        ⟨(l.foldl scanStep ⟨i, c, []⟩).inTag, (l.foldl scanStep ⟨i, c, []⟩).cur,
         (l.foldl scanStep ⟨i, c, []⟩).acc ++ a⟩ := by
  induction l with
  | nil => intro i c a; rfl
  | cons ch l ih =>
      intro i c a
      rw [List.foldl_cons, List.foldl_cons, scanStep_acc]
      rw [ih ((scanStep ⟨i, c, []⟩ ch).inTag) ((scanStep ⟨i, c, []⟩ ch).cur)
            ((scanStep ⟨i, c, []⟩ ch).acc ++ a),
          ih ((scanStep ⟨i, c, []⟩ ch).inTag) ((scanStep ⟨i, c, []⟩ ch).cur)
            ((scanStep ⟨i, c, []⟩ ch).acc)]
      simp [List.append_assoc]

/-- Scanning a concatenation whose left part is clean: the right part is
scanned from a fresh state and the accumulators concatenate. -/
theorem scanDoc_append (s t : String) (hs : CleanScan s) :
    scanDoc (s ++ t) =
      ⟨(scanDoc t).inTag, (scanDoc t).cur, (scanDoc t).acc ++ (scanDoc s).acc⟩ := by
  obtain ⟨h1, h2⟩ := hs
  unfold scanDoc
  rw [show (s ++ t).toList = s.toList ++ t.toList from String.data_append s t,
      List.foldl_append]
  have he : s.toList.foldl scanStep scanStart =
      ⟨(scanDoc s).inTag, (scanDoc s).cur, (scanDoc s).acc⟩ := rfl
  rw [he, h1, h2, foldl_scanStep_acc]
  rfl

theorem tagsOf_append (s t : String) (hs : CleanScan s) :
    tagsOf (s ++ t) = tagsOf s ++ tagsOf t := by
  unfold tagsOf
  rw [scanDoc_append s t hs]
  simp

theorem cleanScan_append (s t : String) (hs : CleanScan s) (ht : CleanScan t) :
    CleanScan (s ++ t) := by
  unfold CleanScan
  rw [scanDoc_append s t hs]
  exact ⟨ht.1, ht.2⟩

/-! ## Lemmas about the stats map -/

theorem statsLookup_eq_none (url : String) (s : StatsMap)
    (h : url ∉ s.map Prod.fst) : statsLookup url s = none := by
  induction s with
  | nil => rfl
  | cons kv t ih =>
      obtain ⟨k, v⟩ := kv
      simp only [List.map_cons, List.mem_cons] at h
      push_neg at h
      have hk : ¬ (k = url) := fun hk => h.1 hk.symm
      simp only [statsLookup, if_neg hk]
      exact ih h.2

theorem statsSet_of_lookup_none (url : String) (v : RequestStat) (s : StatsMap)
    (h : statsLookup url s = none) : statsSet url v s = s ++ [(url, v)] := by
  induction s with
  | nil => rfl
  | cons kv t ih =>
      obtain ⟨k, w⟩ := kv
      by_cases hk : k = url
      · simp [statsLookup, hk] at h
      · have h' : statsLookup url t = none := by
          simpa [statsLookup, if_neg hk] using h
        simp only [statsSet, if_neg hk, List.cons_append]
        rw [ih h']

theorem statsSet_length_of_lookup_some (url : String) (v w : RequestStat)
    (s : StatsMap) (h : statsLookup url s = some w) :
    (statsSet url v s).length = s.length := by
  induction s with
  | nil => simp [statsLookup] at h
  | cons kv t ih =>
      obtain ⟨k, x⟩ := kv
      by_cases hk : k = url
      · simp [statsSet, if_pos hk]
      · have h' : statsLookup url t = some w := by
          simpa [statsLookup, if_neg hk] using h
        simp [statsSet, if_neg hk, ih h']

theorem updateRequestStats_existing_length (url : String) (d : ℚ) (s : StatsMap)
    (w : RequestStat) (h : statsLookup url s = some w) (hlen : s.length ≤ 100) :
    (updateRequestStats url d s).length = s.length := by
  have hl := statsSet_length_of_lookup_some url
    ⟨w.count + 1, (w.avgDuration * (w.count : ℚ) + d) / ((w.count + 1 : ℕ) : ℚ)⟩ w s h
  simp only [updateRequestStats, h]
  rw [hl, if_neg (by omega)]
  exact hl

theorem updateRequestStats_fresh_small (url : String) (d : ℚ) (s : StatsMap)
    (h : statsLookup url s = none) (hlen : s.length < 100) :
    updateRequestStats url d s = s ++ [(url, { count := 1, avgDuration := d })] := by
  have hset := statsSet_of_lookup_none url ⟨1, d⟩ s h
  simp only [updateRequestStats, h, hset]
  rw [if_neg (by simp only [List.length_append, List.length_cons, List.length_nil]; omega)]

theorem updateRequestStats_fresh_full (url : String) (d : ℚ) (k : String)
    (v : RequestStat) (t : StatsMap)
    (h : statsLookup url ((k, v) :: t) = none)
    (hlen : ((k, v) :: t).length = 100) (hk : k ≠ "") :
    updateRequestStats url d ((k, v) :: t) =
      t ++ [(url, { count := 1, avgDuration := d })] := by
  have hset := statsSet_of_lookup_none url ⟨1, d⟩ _ h
  simp only [updateRequestStats, h, hset, List.cons_append]
  rw [if_pos (by simp only [List.length_append, List.length_cons] at hlen ⊢; omega)]
  simp only [if_pos hk]

theorem updateRequestStats_length_le (url : String) (d : ℚ) (s : StatsMap)
    (hkeys : ∀ key ∈ s.map Prod.fst, key ≠ "") (hlen : s.length ≤ 100) :
    (updateRequestStats url d s).length ≤ 100 := by
  cases hcase : statsLookup url s with
  | some w => rw [updateRequestStats_existing_length url d s w hcase hlen]; exact hlen
  | none =>
      rcases Nat.lt_or_ge s.length 100 with hl | hg
      · rw [updateRequestStats_fresh_small url d s hcase hl]
        simp only [List.length_append, List.length_cons, List.length_nil]
        omega
      · have h100 : s.length = 100 := le_antisymm hlen hg
        cases s with
        | nil => simp at h100
        | cons kv t =>
            obtain ⟨k, v⟩ := kv
            have hk : k ≠ "" := hkeys k (by simp)
            rw [updateRequestStats_fresh_full url d k v t hcase h100 hk]
            simp only [List.length_cons] at h100
            simp only [List.length_append, List.length_cons, List.length_nil]
            omega

theorem observe_aux (d : ℚ) :
    ∀ (urls : List String) (s : StatsMap) (seen : List String),
      urls.Nodup → (∀ u ∈ urls, u ≠ "") → (∀ u ∈ urls, u ∉ seen) →
      (∀ key ∈ s.map Prod.fst, key ∈ seen ∧ key ≠ "") → s.length ≤ 100 →
      (urls.foldl (fun m u => updateRequestStats u d m) s).length =
        min (s.length + urls.length) 100 := by
  intro urls
  induction urls with
  | nil =>
      intro s seen _ _ _ _ hlen
      simp only [List.foldl_nil, List.length_nil, Nat.add_zero]
      omega
  | cons u rest ih =>
      intro s seen hnd hne hfresh hkeys hlen
      simp only [List.foldl_cons]
      have hnotmem : u ∉ s.map Prod.fst :=
        fun hmem => (hfresh u (by simp)) ((hkeys u hmem).1)
      have hlook : statsLookup u s = none := statsLookup_eq_none u s hnotmem
      have hnd' : rest.Nodup := (List.nodup_cons.mp hnd).2
      have hu_rest : u ∉ rest := (List.nodup_cons.mp hnd).1
      have hne' : ∀ v ∈ rest, v ≠ "" := fun v hv => hne v (by simp [hv])
      have hfresh' : ∀ v ∈ rest, v ∉ (u :: seen) := by
        intro v hv
        simp only [List.mem_cons]
        push_neg
        exact ⟨fun he => hu_rest (he ▸ hv), hfresh v (by simp [hv])⟩
      rcases Nat.lt_or_ge s.length 100 with hl | hg
      · rw [updateRequestStats_fresh_small u d s hlook hl]
        have hkeys' : ∀ key ∈ (s ++ [(u, (⟨1, d⟩ : RequestStat))]).map Prod.fst,
            key ∈ (u :: seen) ∧ key ≠ "" := by
          intro key hkey
          simp only [List.map_append, List.mem_append, List.map_cons,
            List.map_nil, List.mem_singleton] at hkey
          rcases hkey with hk | hk
          · exact ⟨by simp [(hkeys key hk).1], (hkeys key hk).2⟩
          · exact ⟨by simp [hk], by rw [hk]; exact hne u (by simp)⟩
        have hrec := ih (s ++ [(u, (⟨1, d⟩ : RequestStat))]) (u :: seen) hnd' hne' hfresh' hkeys'
          (by simp only [List.length_append, List.length_cons, List.length_nil]; omega)
        rw [hrec]
        simp only [List.length_append, List.length_cons, List.length_nil]
        omega
      · have h100 : s.length = 100 := le_antisymm hlen hg
        cases s with
        | nil => simp at h100
        | cons kv t =>
            obtain ⟨k, v⟩ := kv
            have hk : k ≠ "" := (hkeys k (by simp)).2
            rw [updateRequestStats_fresh_full u d k v t hlook h100 hk]
            have hkeys' : ∀ key ∈ (t ++ [(u, (⟨1, d⟩ : RequestStat))]).map Prod.fst,
                key ∈ (u :: seen) ∧ key ≠ "" := by
              intro key hkey
              simp only [List.map_append, List.mem_append, List.map_cons,
                List.map_nil, List.mem_singleton] at hkey
              rcases hkey with hk2 | hk2
              · have hmem : key ∈ ((k, v) :: t).map Prod.fst := by simp [hk2]
                exact ⟨by simp [(hkeys key hmem).1], (hkeys key hmem).2⟩
              · exact ⟨by simp [hk2], by rw [hk2]; exact hne u (by simp)⟩
            simp only [List.length_cons] at h100
            have hrec := ih (t ++ [(u, (⟨1, d⟩ : RequestStat))]) (u :: seen) hnd' hne' hfresh' hkeys'
              (by simp only [List.length_append, List.length_cons, List.length_nil]; omega)
            rw [hrec]
            simp only [List.length_append, List.length_cons, List.length_nil]
            omega

theorem strToList_append (a b : String) : (a ++ b).toList = a.toList ++ b.toList :=
  String.data_append a b

/-! ## Claim C1: the hybrid classification heuristic -/

/-- C1 (counterexample): the claim classifies every URL containing the
substring `mixed` as inline, but on `/mixed` (which does not contain any of
the code's I/O-heavy patterns `/api/`, `/test/api-heavy`, `/test/mixed`)
the code classifies worker: with no recorded stats `shouldUseWorker`
returns `true` while the claim's rule order yields inline. -/
theorem hybridClassification_cex :
    shouldUseWorker .hybrid "/mixed" [] = true ∧
    claimHybridUseWorker "/mixed" [] = false := by
  exact ⟨by decide, by decide⟩

/-- C1 (amended): in hybrid mode the classification is decided by the first
matching rule in this order: a URL containing `/api/metrics` is inline;
otherwise a URL containing `/api/`, `/test/api-heavy` or `/test/mixed` is
inline; otherwise a URL containing `/test/cpu-intensive` or
`/benchmark-results` is worker; otherwise a URL containing `/test/simple`
or equal to `/` is worker; otherwise a URL with no recorded observation is
worker, one whose average duration is below 50 ms or above 200 ms is
inline, and otherwise worker. -/
theorem hybridClassification_amended :
    ∀ (url : String) (stats : StatsMap),
      shouldUseWorker .hybrid url stats = amendedHybridUseWorker url stats := by
  intro url stats
  rfl

/-! ## Claim C2: queue-full fallback of the dispatcher -/

/-- C2: for a request dispatched to the worker pool (classified for the
worker in a non-traditional mode), a submission failure whose message
carries Piscina's queue-at-limit text falls back silently to the inline
render — the user receives the inline-rendered page, never the QueueFull
error — while any other submission failure is surfaced as the 500
response. -/
theorem queueFullFallback :
    ∀ (mode : SSRMode) (url : String) (stats : StatsMap) (msg : String)
      (inlineResponse : HttpResponse),
      shouldUseWorker mode url stats = true → mode ≠ .traditional →
      (strIncludes msg queueFullMessage = true →
          middlewareReply mode url stats (.error msg) inlineResponse
            = inlineResponse) ∧
      (strIncludes msg queueFullMessage = false →
          middlewareReply mode url stats (.error msg) inlineResponse
            = serverErrorResponse) := by
  intro mode url stats msg inlineResponse huw hmode
  unfold middlewareReply
  rw [if_pos ⟨huw, hmode⟩]
  constructor <;> intro h <;> simp [workerBranch, h]

/-- C2 witness: a queue-full failure on a worker-mode request returns the
inline page; a different failure returns the 500 response. -/
theorem queueFullFallback_witness :
    shouldUseWorker .worker "/test/simple" [] = true ∧
    strIncludes "Task queue is at limit" queueFullMessage = true ∧
    middlewareReply .worker "/test/simple" [] (.error "Task queue is at limit")
        { status := 200, statusText := "OK", headers := [], body := "<html>ok</html>" }
      = { status := 200, statusText := "OK", headers := [], body := "<html>ok</html>" } ∧
    strIncludes "worker exited unexpectedly" queueFullMessage = false ∧
    middlewareReply .worker "/test/simple" [] (.error "worker exited unexpectedly")
        { status := 200, statusText := "OK", headers := [], body := "<html>ok</html>" }
      = serverErrorResponse := by
  refine ⟨by decide, by decide, ?_, by decide, ?_⟩
  · exact (queueFullFallback .worker "/test/simple" [] "Task queue is at limit" _
      (by decide) (by decide)).1 (by decide)
  · exact (queueFullFallback .worker "/test/simple" [] "worker exited unexpectedly" _
      (by decide) (by decide)).2 (by decide)

/-! ## Claim C3: pool sizing at initialization -/

/-- C3: initializing an uninitialized pool configures it with
`minWorkers = max(1, floor(cpu/2))`, `maxWorkers = max(2, cpu)`, a queue
cap of `maxWorkers × 4` and a 30-second idle timeout, where `cpu` is the
detected CPU count; a positive `WORKER_THREADS` override replaces the
detected count. -/
theorem poolInitializeSizing :
    ∀ (st : WorkerPoolManager) (wt : Option Int)
      (cgV2 cgV1 : Option (Option Int × Option Int)) (osCpus : Nat),
      st.pool = none →
      (st.initializePool wt cgV2 cgV1 osCpus =
        .ok { st with pool := some {
            minThreads := max 1 (Int.fdiv (getCpuCount wt cgV2 cgV1 osCpus) 2),
            maxThreads := max 2 (getCpuCount wt cgV2 cgV1 osCpus),
            maxQueue := max 2 (getCpuCount wt cgV2 cgV1 osCpus) * 4,
            idleTimeout := 30000 } }) ∧
      (∀ v : Int, wt = some v → 0 < v → getCpuCount wt cgV2 cgV1 osCpus = v) := by
  intro st wt cgV2 cgV1 osCpus hpool
  constructor
  · unfold WorkerPoolManager.initializePool
    rw [hpool]
  · intro v hv hpos
    subst hv
    simp [getCpuCount, hpos]

/-- C3 witness: with `WORKER_THREADS=4` on an 8-CPU host the pool gets
`minThreads = 2`, `maxThreads = 4`, `maxQueue = 16`, 30 s idle timeout. -/
theorem poolInitializeSizing_witness :
    WorkerPoolManager.initial.pool = none ∧
    (0 : Int) < 4 ∧
    getCpuCount (some 4) none none 8 = 4 ∧
    WorkerPoolManager.initial.initializePool (some 4) none none 8 =
      .ok { WorkerPoolManager.initial with pool := some {
          minThreads := max 1 (Int.fdiv (getCpuCount (some 4) none none 8) 2),
          maxThreads := max 2 (getCpuCount (some 4) none none 8),
          maxQueue := max 2 (getCpuCount (some 4) none none 8) * 4,
          idleTimeout := 30000 } } := by
  have h := poolInitializeSizing WorkerPoolManager.initial (some 4) none none 8 rfl
  exact ⟨rfl, by decide, h.2 4 rfl (by decide), h.1⟩

/-! ## Claim C4: the synthesized 500 error page -/

/-- C4 (code bug): on every renderer error the render stage returns the
synthesized self-contained 500 page, which contains the error message and
stack; but because the message is interpolated without any HTML escaping,
the document is valid only for markup-free messages — a message carrying
HTML-reserved characters such as `<div>boom` yields a document whose tags
do not nest, so it does not parse as valid HTML, contradicting the claim's
validity requirement. -/
theorem errorPageProperties :
    (∀ (e : JsError) (d : ℚ),
        (renderRoute (.error e) d).html = generateErrorPage e ∧
        (renderRoute (.error e) d).error = some e) ∧
    (∀ e : JsError,
        strIncludes (generateErrorPage e) e.message = true ∧
        strIncludes (generateErrorPage e) e.stack = true) ∧
    parsesAsValidHtml (generateErrorPage
      { message := "boom", stack := "at renderer" }) = true ∧
    parsesAsValidHtml (generateErrorPage
      { message := "<div>boom", stack := "at renderer" }) = false := by
  refine ⟨fun e d => ⟨rfl, rfl⟩, fun e => ⟨?_, ?_⟩, ?_, ?_⟩
  · unfold strIncludes
    rw [decide_eq_true_eq]
    refine ⟨errPage1.toList ++ errPage2.toList ++ errPage3.toList ++
      errPage4.toList ++ errPage5.toList,
      errPage6.toList ++ e.stack.toList ++ errPage7.toList, ?_⟩
    simp only [generateErrorPage, strToList_append, List.append_assoc]
  · unfold strIncludes
    rw [decide_eq_true_eq]
    refine ⟨errPage1.toList ++ errPage2.toList ++ errPage3.toList ++
      errPage4.toList ++ errPage5.toList ++ e.message.toList ++ errPage6.toList,
      errPage7.toList, ?_⟩
    simp only [generateErrorPage, strToList_append, List.append_assoc]
  · show checkTagNesting
      (tagsOf (generateErrorPage { message := "boom", stack := "at renderer" })) []
        = true
    rw [show generateErrorPage { message := "boom", stack := "at renderer" } =
          errPage1 ++ (errPage2 ++ (errPage3 ++ (errPage4 ++ (errPage5 ++
            ("boom" ++ (errPage6 ++ ("at renderer" ++ errPage7))))))) from rfl]
    rw [tagsOf_append errPage1 _ (by decide), tagsOf_append errPage2 _ (by decide),
        tagsOf_append errPage3 _ (by decide), tagsOf_append errPage4 _ (by decide),
        tagsOf_append errPage5 _ (by decide), tagsOf_append "boom" _ (by decide),
        tagsOf_append errPage6 _ (by decide),
        tagsOf_append "at renderer" _ (by decide)]
    decide
  · show checkTagNesting
      (tagsOf (generateErrorPage { message := "<div>boom", stack := "at renderer" })) []
        = false
    rw [show generateErrorPage { message := "<div>boom", stack := "at renderer" } =
          errPage1 ++ (errPage2 ++ (errPage3 ++ (errPage4 ++ (errPage5 ++
            ("<div>boom" ++ (errPage6 ++ ("at renderer" ++ errPage7))))))) from rfl]
    rw [tagsOf_append errPage1 _ (by decide), tagsOf_append errPage2 _ (by decide),
        tagsOf_append errPage3 _ (by decide), tagsOf_append errPage4 _ (by decide),
        tagsOf_append errPage5 _ (by decide), tagsOf_append "<div>boom" _ (by decide),
        tagsOf_append errPage6 _ (by decide),
        tagsOf_append "at renderer" _ (by decide)]
    decide

/-! ## Claim C5: submissions after shutdown -/

/-- C5: after `shutdown()` on an initialized pool, every subsequent
`render` submission fails with the pool's closed-pool error (the code uses
a single "Worker pool not initialized" error for the missing-pool state),
whatever the task, the worker outcome or the live gauges. -/
theorem renderAfterShutdownFails :
    ∀ (st : WorkerPoolManager), st.pool.isSome = true →
      ∀ (input : RenderInput) (workerResult : Except String RenderOutput)
        (liveQueueSize liveActiveWorkers : Nat),
        (st.shutdown.render input workerResult liveQueueSize liveActiveWorkers).1
          = .error notInitializedMessage := by
  intro st h input workerResult liveQueueSize liveActiveWorkers
  obtain ⟨p, hp⟩ := Option.isSome_iff_exists.mp h
  unfold WorkerPoolManager.shutdown
  rw [hp]
  rfl

/-- C5 witness: a concrete initialized pool, shut down, rejects a concrete
submission. -/
theorem renderAfterShutdownFails_witness :
    ({ pool := some { minThreads := 2, maxThreads := 4, maxQueue := 16,
                      idleTimeout := 30000 },
       metrics := PoolMetrics.initial, taskDurations := [] }
        : WorkerPoolManager).pool.isSome = true ∧
    (({ pool := some { minThreads := 2, maxThreads := 4, maxQueue := 16,
                       idleTimeout := 30000 },
        metrics := PoolMetrics.initial, taskDurations := [] }
        : WorkerPoolManager).shutdown.render
      { url := "http://localhost:4321/test/simple", method := "GET",
        headers := [], body := none, locals := none }
      (.ok { status := 200, statusText := "OK", headers := [],
             body := "<html>ok</html>", duration := 5, workerId := 1 }) 0 2).1
      = .error notInitializedMessage := by
  refine ⟨rfl, renderAfterShutdownFails _ ?_ _ _ _ _⟩
  rfl

/-! ## Claim C6: calling initialize twice -/

/-- C6 (counterexample): a second `initialize()` on an already initialized
pool does not fail — it returns successfully and leaves the pool exactly as
it was (the code logs a warning and returns), so no `AlreadyInitialized`
error is raised. -/
theorem initializeSecondCall_cex :
    WorkerPoolManager.initial.initializePool (some 4) none none 8 =
      .ok { pool := some { minThreads := 2, maxThreads := 4, maxQueue := 16,
                           idleTimeout := 30000 },
            metrics := PoolMetrics.initial, taskDurations := [] } ∧
    ({ pool := some { minThreads := 2, maxThreads := 4, maxQueue := 16,
                      idleTimeout := 30000 },
       metrics := PoolMetrics.initial, taskDurations := [] }
        : WorkerPoolManager).initializePool (some 4) none none 8 =
      .ok { pool := some { minThreads := 2, maxThreads := 4, maxQueue := 16,
                           idleTimeout := 30000 },
            metrics := PoolMetrics.initial, taskDurations := [] } :=
  ⟨rfl, rfl⟩

/-- C6 (amended): for every pool on which `initialize()` has already
completed, a second call to `initialize()` returns successfully and leaves
the manager unchanged — an idempotent no-op, with no error. -/
theorem initializeSecondCallNoop :
    ∀ (st : WorkerPoolManager), st.pool.isSome = true →
      ∀ (wt : Option Int) (cgV2 cgV1 : Option (Option Int × Option Int))
        (osCpus : Nat),
        st.initializePool wt cgV2 cgV1 osCpus = .ok st := by
  intro st h wt cgV2 cgV1 osCpus
  obtain ⟨p, hp⟩ := Option.isSome_iff_exists.mp h
  unfold WorkerPoolManager.initializePool
  rw [hp]

/-- C6 witness: the concrete initialized pool absorbs a second initialize
call unchanged. -/
theorem initializeSecondCallNoop_witness :
    ({ pool := some { minThreads := 2, maxThreads := 4, maxQueue := 16,
                      idleTimeout := 30000 },
       metrics := PoolMetrics.initial, taskDurations := [] }
        : WorkerPoolManager).pool.isSome = true ∧
    ({ pool := some { minThreads := 2, maxThreads := 4, maxQueue := 16,
                      idleTimeout := 30000 },
       metrics := PoolMetrics.initial, taskDurations := [] }
        : WorkerPoolManager).initializePool (some 2) none none 4 =
      .ok { pool := some { minThreads := 2, maxThreads := 4, maxQueue := 16,
                           idleTimeout := 30000 },
            metrics := PoolMetrics.initial, taskDurations := [] } := by
  refine ⟨rfl, initializeSecondCallNoop _ ?_ _ _ _ _⟩
  rfl

/-! ## Claim C7: the health check threshold -/

/-- C7 (counterexample): with 1 failed submission out of 10 — a failure
rate of exactly 10% — `isHealthy()` returns `false`, because the code
tests `failureRate < 0.1` strictly; the claim says it should return
`true` at exactly 10%. -/
theorem isHealthyAtTenPercent_cex :
    ({ pool := some { minThreads := 2, maxThreads := 4, maxQueue := 16,
                      idleTimeout := 30000 },
       metrics := { totalTasks := 10, completedTasks := 9, failedTasks := 1,
                    activeWorkers := 2, queueSize := 0, avgTaskDuration := 12,
                    cpuUsage := 0 },
       taskDurations := [] } : WorkerPoolManager).isHealthy = false := by
  simp only [WorkerPoolManager.isHealthy, decide_eq_false_iff_not]
  norm_num

/-- C7 (amended): for every initialized pool, `isHealthy()` returns `true`
iff no submission has been recorded or the failed submissions are strictly
below 10% of total submissions; at exactly 10% it returns `false`. -/
theorem isHealthyStrictThreshold :
    ∀ (st : WorkerPoolManager), st.pool.isSome = true →
      (st.isHealthy = true ↔
        (st.metrics.totalTasks = 0 ∨
          10 * st.metrics.failedTasks < st.metrics.totalTasks)) := by
  intro st h
  obtain ⟨p, hp⟩ := Option.isSome_iff_exists.mp h
  simp only [WorkerPoolManager.isHealthy, hp]
  by_cases ht : st.metrics.totalTasks = 0
  · simp only [ht, if_neg (lt_irrefl 0)]
    norm_num
  · have ht' : 0 < st.metrics.totalTasks := Nat.pos_of_ne_zero ht
    rw [if_pos ht', decide_eq_true_eq]
    have htQ : (0 : ℚ) < (st.metrics.totalTasks : ℚ) := by exact_mod_cast ht'
    rw [div_lt_div_iff htQ (by norm_num : (0 : ℚ) < 10), one_mul]
    constructor
    · intro hlt
      right
      have hc : ((st.metrics.failedTasks * 10 : ℕ) : ℚ) <
          ((st.metrics.totalTasks : ℕ) : ℚ) := by push_cast; linarith
      have := Nat.cast_lt (α := ℚ) |>.mp hc
      omega
    · intro hor
      rcases hor with h0 | hlt
      · exact absurd h0 ht
      · have hc : (st.metrics.failedTasks * 10 : ℕ) < st.metrics.totalTasks := by
          omega
        have := Nat.cast_lt (α := ℚ) |>.mpr hc
        push_cast at this
        linarith

/-- C7 witness: a concrete initialized pool at a 5% failure rate is
healthy. -/
theorem isHealthyStrictThreshold_witness :
    ({ pool := some { minThreads := 2, maxThreads := 4, maxQueue := 16,
                      idleTimeout := 30000 },
       metrics := { totalTasks := 20, completedTasks := 19, failedTasks := 1,
                    activeWorkers := 2, queueSize := 0, avgTaskDuration := 12,
                    cpuUsage := 0 },
       taskDurations := [] } : WorkerPoolManager).pool.isSome = true ∧
    ({ pool := some { minThreads := 2, maxThreads := 4, maxQueue := 16,
                      idleTimeout := 30000 },
       metrics := { totalTasks := 20, completedTasks := 19, failedTasks := 1,
                    activeWorkers := 2, queueSize := 0, avgTaskDuration := 12,
                    cpuUsage := 0 },
       taskDurations := [] } : WorkerPoolManager).isHealthy = true := by
  refine ⟨rfl, (isHealthyStrictThreshold _ ?_).mpr (Or.inr (by norm_num))⟩
  rfl

/-! ## Claim C8: failure modes of createRenderInput -/

/-- C8 (counterexample): `createRenderInput` does not fail in either
claimed situation.  On a request whose body stream was already read, the
internal body read throws, but the catch swallows it and the assemble step
returns a RenderInput with the body simply omitted — no `BodyConsumed`
error.  On a request whose URL is not absolute-parseable, the URL is
copied verbatim with no validation — no `MalformedRequest` error. -/
theorem createRenderInput_cex :
    jsRequestText { url := "http://localhost:4321/submit", method := "POST",
                    headers := [], body := some "payload", bodyConsumed := true }
      = .error "Body has already been consumed." ∧
    createRenderInput
      { url := "http://localhost:4321/submit", method := "POST",
        headers := [], body := some "payload", bodyConsumed := true } none
      = { url := "http://localhost:4321/submit", method := "POST",
          headers := [], body := none, locals := none } ∧
    createRenderInput
      { url := "::not-an-absolute-url::", method := "GET",
        headers := [], body := none, bodyConsumed := false } none
      = { url := "::not-an-absolute-url::", method := "GET",
          headers := [], body := none, locals := none } :=
  ⟨rfl, rfl, rfl⟩

/-- C8 (amended): `createRenderInput` never fails: the URL is copied to the
RenderInput without any validation, and when the request's streaming body
has already been read the resulting RenderInput omits the body instead of
raising an error. -/
theorem createRenderInputNeverFails :
    ∀ (r : JsRequest) (locals : Option (List (String × String))),
      (createRenderInput r locals).url = r.url ∧
      (r.bodyConsumed = true → (createRenderInput r locals).body = none) := by
  intro r locals
  refine ⟨rfl, ?_⟩
  intro h
  simp [createRenderInput, jsRequestText, h]

/-- C8 witness: a concrete consumed-body POST request assembles with its
URL copied and its body omitted. -/
theorem createRenderInputNeverFails_witness :
    (createRenderInput
      { url := "http://localhost:4321/submit", method := "POST",
        headers := [("content-type", "text/plain")], body := some "payload",
        bodyConsumed := true } none).url = "http://localhost:4321/submit" ∧
    ({ url := "http://localhost:4321/submit", method := "POST",
       headers := [("content-type", "text/plain")], body := some "payload",
       bodyConsumed := true } : JsRequest).bodyConsumed = true ∧
    (createRenderInput
      { url := "http://localhost:4321/submit", method := "POST",
        headers := [("content-type", "text/plain")], body := some "payload",
        bodyConsumed := true } none).body = none := by
  refine ⟨(createRenderInputNeverFails _ none).1, rfl,
    (createRenderInputNeverFails _ none).2 rfl⟩

/-! ## Claim C9: stats-map size bound and eviction -/

/-- C9: the per-URL stats map stays within 100 entries.  (1) For every
update with nonempty keys (request URLs are nonempty absolute URLs; the
deletion guard skips an empty-string key) a map of at most 100 entries
stays at most 100 entries.  (2) Observing 101 distinct nonempty URLs from
the empty map leaves exactly 100 entries.  (3) When an update inserts a
fresh URL into a full 100-entry map, the entry evicted is the head of the
insertion order — the oldest. -/
theorem statsMapEviction :
    (∀ (url : String) (d : ℚ) (s : StatsMap),
        (∀ key ∈ s.map Prod.fst, key ≠ "") → s.length ≤ 100 →
        (updateRequestStats url d s).length ≤ 100) ∧
    (∀ (urls : List String) (d : ℚ),
        urls.Nodup → (∀ u ∈ urls, u ≠ "") → urls.length = 101 →
        (observeAll urls d).length = 100) ∧
    (∀ (url : String) (d : ℚ) (k : String) (v : RequestStat) (t : StatsMap),
        statsLookup url ((k, v) :: t) = none → ((k, v) :: t).length = 100 →
        k ≠ "" →
        updateRequestStats url d ((k, v) :: t) =
          t ++ [(url, { count := 1, avgDuration := d })]) := by
  refine ⟨updateRequestStats_length_le, ?_, updateRequestStats_fresh_full⟩
  intro urls d hnd hne h101
  have h := observe_aux d urls [] [] hnd hne (by simp) (by simp) (by simp)
  rw [observeAll, h, h101]
  omega

/-- C9 witness: 101 concrete distinct URLs observed once each leave
exactly 100 entries; a concrete single update keeps the size bound; a
concrete full map evicts its oldest entry. -/
theorem statsMapEviction_witness :
    c9urls.Nodup ∧ (∀ u ∈ c9urls, u ≠ "") ∧ c9urls.length = 101 ∧
    (observeAll c9urls 7).length = 100 ∧
    (updateRequestStats "/test/simple" 7 [("/", ⟨1, 3⟩)]).length ≤ 100 ∧
    updateRequestStats "/test/simple" 7
        (("/a", (⟨1, 3⟩ : RequestStat)) ::
          List.replicate 99 ("/b", (⟨1, 3⟩ : RequestStat))) =
      List.replicate 99 ("/b", (⟨1, 3⟩ : RequestStat)) ++
        [("/test/simple", { count := 1, avgDuration := 7 })] := by
  have hnd : c9urls.Nodup := by decide
  have hne : ∀ u ∈ c9urls, u ≠ "" := by decide
  have hlen : c9urls.length = 101 := by decide
  refine ⟨hnd, hne, hlen, statsMapEviction.2.1 c9urls 7 hnd hne hlen,
    statsMapEviction.1 "/test/simple" 7 [("/", ⟨1, 3⟩)] (by decide) (by decide),
    statsMapEviction.2.2 "/test/simple" 7 "/a" ⟨1, 3⟩
      (List.replicate 99 ("/b", ⟨1, 3⟩)) (by decide) (by decide) (by decide)⟩

/-! ## Claim C10: round-trip of the render-task schema -/

/-- C10 (counterexample): a POST request with a readable but empty body is
not preserved by the round trip: `createRenderInput` reads the empty body,
but `createRequestFromInput` drops it (the empty string is falsy in the
`body && method !== "GET" && method !== "HEAD"` test), so the rebuilt
request has no body where the original had one. -/
theorem roundTrip_cex :
    ({ url := "http://localhost:4321/submit", method := "POST",
       headers := [("content-type", "text/plain")], body := some "",
       bodyConsumed := false } : JsRequest).body = some "" ∧
    (createRequestFromInput (createRenderInput
      { url := "http://localhost:4321/submit", method := "POST",
        headers := [("content-type", "text/plain")], body := some "",
        bodyConsumed := false } none)).body = none :=
  ⟨rfl, rfl⟩

/-- C10 (amended): the round trip `createRequestFromInput ∘
createRenderInput` preserves the URL, the method and the header map
exactly; the body is preserved for non-GET/HEAD methods whenever it is
readable and non-empty, while a consumed or empty body rebuilds as no
body, and for GET and HEAD the body is always absent. -/
theorem roundTripPreservation :
    ∀ (r : JsRequest) (locals : Option (List (String × String))),
      (createRequestFromInput (createRenderInput r locals)).url = r.url ∧
      (createRequestFromInput (createRenderInput r locals)).method = r.method ∧
      (createRequestFromInput (createRenderInput r locals)).headers = r.headers ∧
      (∀ b : String, r.method ≠ "GET" → r.method ≠ "HEAD" →
        r.bodyConsumed = false → r.body = some b → b ≠ "" →
        (createRequestFromInput (createRenderInput r locals)).body = some b) ∧
      ((r.method = "GET" ∨ r.method = "HEAD") →
        (createRequestFromInput (createRenderInput r locals)).body = none) ∧
      (r.bodyConsumed = true →
        (createRequestFromInput (createRenderInput r locals)).body = none) ∧
      (r.body = some "" →
        (createRequestFromInput (createRenderInput r locals)).body = none) := by
  intro r locals
  refine ⟨rfl, rfl, rfl, ?_, ?_, ?_, ?_⟩
  · intro b hg hh hc hb hne
    simp [createRequestFromInput, createRenderInput, jsRequestText,
      hg, hh, hc, hb, hne]
  · intro hgh
    rcases hgh with hg | hg <;>
      simp [createRequestFromInput, createRenderInput, hg]
  · intro hc
    simp only [createRequestFromInput, createRenderInput, jsRequestText, hc]
    split_ifs <;> simp
  · intro hb
    simp only [createRequestFromInput, createRenderInput, jsRequestText, hb]
    split_ifs <;> simp

/-- C10 witness: a concrete POST with body `"hello"` round-trips with URL,
method, headers and body intact; a concrete GET rebuilds with no body. -/
theorem roundTripPreservation_witness :
    (createRequestFromInput (createRenderInput
      { url := "http://localhost:4321/submit", method := "POST",
        headers := [("content-type", "text/plain")], body := some "hello",
        bodyConsumed := false } none)).url = "http://localhost:4321/submit" ∧
    (createRequestFromInput (createRenderInput
      { url := "http://localhost:4321/submit", method := "POST",
        headers := [("content-type", "text/plain")], body := some "hello",
        bodyConsumed := false } none)).headers = [("content-type", "text/plain")] ∧
    (createRequestFromInput (createRenderInput
      { url := "http://localhost:4321/submit", method := "POST",
        headers := [("content-type", "text/plain")], body := some "hello",
        bodyConsumed := false } none)).body = some "hello" ∧
    (createRequestFromInput (createRenderInput
      { url := "http://localhost:4321/page", method := "GET",
        headers := [], body := none, bodyConsumed := false } none)).body = none := by
  refine ⟨(roundTripPreservation _ none).1, ?_, ?_, ?_⟩
  · exact (roundTripPreservation _ none).2.2.1
  · exact (roundTripPreservation _ none).2.2.2.1 "hello" (by decide) (by decide)
      rfl rfl (by decide)
  · exact (roundTripPreservation _ none).2.2.2.2.1 (Or.inl rfl)
